import Mathlib

/-!
# onelogin-go-sdk: the client constructor `NewClient`

A shallow embedding of `pkg/client/client.go`.

* Go pointers that the code may leave or receive as `nil` are `Option` values.
* `time.Duration` is a signed 64-bit integer; its arithmetic wraps, which is
  written out with `wrapInt64`.
* The service packages imported by `client.go` (`olhttp`, `apps`, `apprules`, ...)
  and the method `(*APIClientConfig).Initialize` are not part of the file; they are the
  fields of `Packages`, over which `NewClient` is parametric.
* A nil-pointer dereference is the result `none` of `NewClient`.
-/

namespace client

/-! ## Machine integers and `time` -/

/-- Two's-complement wrap of an integer into the range of Go's `int64`. -/
def wrapInt64 (x : Int) : Int :=
  (x + 2 ^ 63) % 2 ^ 64 - 2 ^ 63

/-- Go's `time.Duration(x)`: conversion of an integer to `int64` nanoseconds. -/
def Duration (x : Int) : Int :=
  wrapInt64 x

/-- Go's `time.Second`, in nanoseconds. -/
def Second : Int :=
  1000000000

/-- Multiplication of two `time.Duration` values (wrapping `int64` product). -/
def Duration.mul (a b : Int) : Int :=
  wrapInt64 (a * b)

/-! ## Data model -/

/-- Modelled from the spec: the declaration of `APIClientConfig` is not in `client.go`;
the fields are those `NewClient` reads (`ClientID`, `ClientSecret`, `Region`, `Url`,
`Timeout`), with `Timeout` the "integer seconds" of the construction configuration. -/
structure APIClientConfig where
  Timeout : Int
  ClientID : String
  ClientSecret : String
  Region : String
  Url : String
  deriving DecidableEq, Repr

/-- The part of `net/http.Client` that `NewClient` sets: `Timeout`, a `time.Duration`. -/
structure HTTPClient where
  Timeout : Int
  deriving DecidableEq, Repr

/-- The literal `services.HTTPServiceConfig` built in `NewClient` (lines 60-65). -/
structure HTTPServiceConfig where
  ClientID : String
  ClientSecret : String
  BaseURL : String
  Client : HTTPClient
  deriving DecidableEq, Repr

/-- What `client.go` takes from outside the file: the error type, the method
`(*APIClientConfig).Initialize`, the service types and the `New` constructor of each
imported service package, with the argument lists of the call sites in `NewClient`.
Each service type stands for the struct behind the pointer a `New` returns, and a `New`
returns a pointer to a built service, not nil. -/
structure Packages where
  Error : Type
  Initialize : Option APIClientConfig → Option APIClientConfig × Option Error
  OLHTTPService : Type
  LegalValuesService : Type
  AppsV2Service : Type
  AppRulesV2Service : Type
  UsersV2Service : Type
  UserMappingsV2Service : Type
  SessionLoginTokensV1Service : Type
  AuthServersV2Service : Type
  AccessTokenClaimsV2Service : Type
  ScopesV2Service : Type
  SmartHooksV1Service : Type
  RolesV1Service : Type
  olhttpNew : HTTPServiceConfig → OLHTTPService
  legalvaluesNew : OLHTTPService → String → LegalValuesService
  appsNew : OLHTTPService → String → AppsV2Service
  apprulesNew : OLHTTPService → LegalValuesService → String → AppRulesV2Service
  usermappingsNew : OLHTTPService → LegalValuesService → String → UserMappingsV2Service
  usersNew : OLHTTPService → String → UsersV2Service
  sessionlogintokensNew : OLHTTPService → String → SessionLoginTokensV1Service
  authserversNew : OLHTTPService → String → AuthServersV2Service
  accesstokenclaimsNew : OLHTTPService → String → AccessTokenClaimsV2Service
  scopesNew : OLHTTPService → String → ScopesV2Service
  smarthooksNew : OLHTTPService → String → SmartHooksV1Service
  rolesNew : OLHTTPService → String → RolesV1Service

/-- The struct `Services` (lines 34-46): eleven pointer fields, `none` is Go's `nil`. -/
structure Services (P : Packages) where
  HTTPService : Option P.OLHTTPService
  AppsV2 : Option P.AppsV2Service
  AppRulesV2 : Option P.AppRulesV2Service
  UsersV2 : Option P.UsersV2Service
  UserMappingsV2 : Option P.UserMappingsV2Service
  SessionLoginTokensV1 : Option P.SessionLoginTokensV1Service
  AuthServersV2 : Option P.AuthServersV2Service
  AccessTokenClaimsV2 : Option P.AccessTokenClaimsV2Service
  ScopesV2 : Option P.ScopesV2Service
  SmartHooksV1 : Option P.SmartHooksV1Service
  RolesV1 : Option P.RolesV1Service

/-- The struct `APIClient` (lines 24-31); `client` and `Services` are pointers. -/
structure APIClient (P : Packages) where
  clientID : String
  clientSecret : String
  region : String
  baseURL : String
  client : Option HTTPClient
  Services : Option (Services P)

/-- The zero value `APIClient{}` returned on the error path (line 53). -/
def APIClient.zero (P : Packages) : APIClient P :=
  { clientID := "", clientSecret := "", region := "", baseURL := "",
    client := none, Services := none }

/-! ## `NewClient` -/

/-- The function `NewClient` (lines 50-89). A returned value is the Go pair `(*APIClient, error)`.
The outer `none` is the run-time panic of reading a field through a nil `cfg`, which
happens when `Initialize` returns a nil config together with a nil error. -/
def NewClient (P : Packages) (cfg : Option APIClientConfig) :
    Option (Option (APIClient P) × Option P.Error) :=
  match P.Initialize cfg with
  | (_, some err) => some (some (APIClient.zero P), some err)
  | (none, none) => none
  | (some cfg, none) =>
    let httpClient : HTTPClient := { Timeout := Duration.mul Second (Duration cfg.Timeout) }
    let resourceRepository := P.olhttpNew
      { ClientID := cfg.ClientID
        ClientSecret := cfg.ClientSecret
        BaseURL := cfg.Url
        Client := httpClient }
    let legalValuesService := P.legalvaluesNew resourceRepository cfg.Url
    some
      (some
       { clientID := cfg.ClientID
         clientSecret := cfg.ClientSecret
         region := cfg.Region
         baseURL := cfg.Url
         client := some httpClient
         Services := some
           { HTTPService := some resourceRepository
             AppsV2 := some (P.appsNew resourceRepository cfg.Url)
             AppRulesV2 := some (P.apprulesNew resourceRepository legalValuesService cfg.Url)
             UserMappingsV2 :=
               some (P.usermappingsNew resourceRepository legalValuesService cfg.Url)
             UsersV2 := some (P.usersNew resourceRepository cfg.Url)
             SessionLoginTokensV1 := some (P.sessionlogintokensNew resourceRepository cfg.Url)
             AuthServersV2 := some (P.authserversNew resourceRepository cfg.Url)
             AccessTokenClaimsV2 := some (P.accesstokenclaimsNew resourceRepository cfg.Url)
             ScopesV2 := some (P.scopesNew resourceRepository cfg.Url)
             SmartHooksV1 := some (P.smarthooksNew resourceRepository cfg.Url)
             RolesV1 := some (P.rolesNew resourceRepository cfg.Url) } },
       none)

/-! ## The fields of `Services`, by package -/

/-- The service packages imported by `client.go` (lines 8-20). -/
inductive Package where
  | apps
  | apprules
  | authservers
  | accesstokenclaims
  | scopes
  | legalvalues
  | olhttp
  | roles
  | sessionlogintokens
  | smarthooks
  | usermappings
  | users
  deriving DecidableEq, Repr

/-- The eleven fields declared by the struct `Services` (lines 35-45). -/
inductive ServicesField where
  | HTTPService
  | AppsV2
  | AppRulesV2
  | UsersV2
  | UserMappingsV2
  | SessionLoginTokensV1
  | AuthServersV2
  | AccessTokenClaimsV2
  | ScopesV2
  | SmartHooksV1
  | RolesV1
  deriving DecidableEq, Repr

/-- All fields of `Services`, in declaration order. -/
def ServicesField.all : List ServicesField :=
  [.HTTPService, .AppsV2, .AppRulesV2, .UsersV2, .UserMappingsV2, .SessionLoginTokensV1,
   .AuthServersV2, .AccessTokenClaimsV2, .ScopesV2, .SmartHooksV1, .RolesV1]

/-- The package of the declared type of each field of `Services` (lines 35-45). -/
def ServicesField.package : ServicesField → Package
  | .HTTPService => .olhttp
  | .AppsV2 => .apps
  | .AppRulesV2 => .apprules
  | .UsersV2 => .users
  | .UserMappingsV2 => .usermappings
  | .SessionLoginTokensV1 => .sessionlogintokens
  | .AuthServersV2 => .authservers
  | .AccessTokenClaimsV2 => .accesstokenclaims
  | .ScopesV2 => .scopes
  | .SmartHooksV1 => .smarthooks
  | .RolesV1 => .roles

/-- Whether a field of a `Services` value is set (holds a non-nil pointer). -/
def Services.isSet {P : Packages} (s : Services P) : ServicesField → Bool
  | .HTTPService => s.HTTPService.isSome
  | .AppsV2 => s.AppsV2.isSome
  | .AppRulesV2 => s.AppRulesV2.isSome
  | .UsersV2 => s.UsersV2.isSome
  | .UserMappingsV2 => s.UserMappingsV2.isSome
  | .SessionLoginTokensV1 => s.SessionLoginTokensV1.isSome
  | .AuthServersV2 => s.AuthServersV2.isSome
  | .AccessTokenClaimsV2 => s.AccessTokenClaimsV2.isSome
  | .ScopesV2 => s.ScopesV2.isSome
  | .SmartHooksV1 => s.SmartHooksV1.isSome
  | .RolesV1 => s.RolesV1.isSome

/-- The resource kinds listed in the purpose statement of the specification. -/
inductive ResourceKind where
  | applications
  | users
  | roles
  | authServers
  | scopes
  | smartHooks
  | sessionLoginTokens
  | appRules
  | userMappings
  | legalValues
  deriving DecidableEq, Repr

/-- The service package that implements a resource kind. -/
def ResourceKind.package : ResourceKind → Package
  | .applications => .apps
  | .users => .users
  | .roles => .roles
  | .authServers => .authservers
  | .scopes => .scopes
  | .smartHooks => .smarthooks
  | .sessionLoginTokens => .sessionlogintokens
  | .appRules => .apprules
  | .userMappings => .usermappings
  | .legalValues => .legalvalues

/-- A `Services` value holds a service of kind `k`: one of its fields has a type of the
package of `k` and is set. -/
def Services.holds {P : Packages} (s : Services P) (k : ResourceKind) : Bool :=
  ServicesField.all.any fun f => decide (f.package = k.package) && s.isSet f

/-! ## A concrete instance, for evaluating `NewClient` -/

/-- A service value that records the constructor that built it and what it was given. -/
structure Built where
  package : Package
  repository : HTTPServiceConfig
  legalValues : Option (HTTPServiceConfig × String)
  host : String
  deriving DecidableEq, Repr

/-- An instance of `Packages`: `Initialize` rejects a nil config and an empty client
identifier and applies a default timeout of five seconds; the executor is its
configuration, and every other service records its constructor arguments. -/
def recording : Packages where
  Error := String
  Initialize := fun cfg =>
    match cfg with
    | none => (none, some "nil config")
    | some c =>
      if c.ClientID = "" then (some c, some "client id is required")
      else (some { c with Timeout := if c.Timeout = 0 then 5 else c.Timeout }, none)
  OLHTTPService := HTTPServiceConfig
  LegalValuesService := HTTPServiceConfig × String
  AppsV2Service := Built
  AppRulesV2Service := Built
  UsersV2Service := Built
  UserMappingsV2Service := Built
  SessionLoginTokensV1Service := Built
  AuthServersV2Service := Built
  AccessTokenClaimsV2Service := Built
  ScopesV2Service := Built
  SmartHooksV1Service := Built
  RolesV1Service := Built
  olhttpNew := fun c => c
  legalvaluesNew := fun r h => (r, h)
  appsNew := fun r h => ⟨.apps, r, none, h⟩
  apprulesNew := fun r l h => ⟨.apprules, r, some l, h⟩
  usermappingsNew := fun r l h => ⟨.usermappings, r, some l, h⟩
  usersNew := fun r h => ⟨.users, r, none, h⟩
  sessionlogintokensNew := fun r h => ⟨.sessionlogintokens, r, none, h⟩
  authserversNew := fun r h => ⟨.authservers, r, none, h⟩
  accesstokenclaimsNew := fun r h => ⟨.accesstokenclaims, r, none, h⟩
  scopesNew := fun r h => ⟨.scopes, r, none, h⟩
  smarthooksNew := fun r h => ⟨.smarthooks, r, none, h⟩
  rolesNew := fun r h => ⟨.roles, r, none, h⟩

/-- A configuration accepted by `recording.Initialize`. -/
def sampleConfig : APIClientConfig :=
  { Timeout := 30, ClientID := "id", ClientSecret := "secret", Region := "us",
    Url := "https://api.us.onelogin.com" }

/-- A configuration rejected by `recording.Initialize`. -/
def emptyConfig : APIClientConfig :=
  { Timeout := 0, ClientID := "", ClientSecret := "", Region := "", Url := "" }

end client

/-! ## The request executor `olhttp`

The package `olhttp` is not part of `client.go`; `NewClient` only calls `olhttp.New`.
This section models the executor from section 4.1 of the specification. -/

namespace olhttp

open client (HTTPClient HTTPServiceConfig)

/-- Modelled from the spec: the HTTP methods `Execute` is restricted to (the package
`olhttp` is missing from the sources). -/
inductive Method where
  | GET
  | POST
  | PUT
  | DELETE
  deriving DecidableEq, Repr

/-- Modelled from the spec: the request descriptor sent over the wire (the package
`olhttp` is missing): method, target URL, the query string appended to it, the headers
and the optional JSON body. -/
structure Request where
  method : Method
  url : String
  rawQuery : String
  header : List (String × String)
  body : Option String
  deriving DecidableEq, Repr

/-- Modelled from the spec: a response (the package `olhttp` is missing): status code
and raw body bytes. -/
structure Response where
  statusCode : Int
  body : List UInt8
  deriving DecidableEq, Repr

/-- Modelled from the spec: the decoded error payload, shaped
`statusCode, code, message`, and decoded leniently: a missing field is absent. -/
structure ErrorPayload where
  statusCode : Option Int
  code : Option String
  message : Option String
  deriving DecidableEq, Repr

/-- Modelled from the spec: the errors `Execute` returns (the package `olhttp` is
missing). A `TransportError` is a request that got no response; an `APIError` is a
non-2xx response, with the remote code and message when the body decodes, and with the
raw body text alone when it does not. -/
inductive ExecuteError (Cause : Type) where
  | TransportError (cause : Cause)
  | APIError (status : Int) (code : Option String) (message : Option String)
      (raw : Option (List UInt8))
  deriving DecidableEq, Repr

/-- Modelled from the spec: the executor that `olhttp.New` returns (the package `olhttp`
is missing): it keeps the configuration it was built with. -/
structure OLHTTPService where
  Config : HTTPServiceConfig
  deriving DecidableEq, Repr

/-- Modelled from the spec: `olhttp.New` (missing from the sources), which receives
the credentials, the base URL and the HTTP client at construction time. -/
def New (cfg : HTTPServiceConfig) : OLHTTPService :=
  { Config := cfg }

/-- Modelled from the spec: the external collaborators of the executor (all outside the
sources): the source of the current access token, the JSON encoder of bodies, the
escaping of one query component, the decoder of a structured error body, and the
round trip of the HTTP client, which fails with a transport cause or yields a response. -/
structure Collaborators (Body Cause : Type) where
  token : HTTPServiceConfig → String
  marshal : Body → String
  queryEscape : String → String
  decodeError : List UInt8 → Option ErrorPayload
  roundTrip : HTTPClient → Request → Except Cause Response

/-- Modelled from the spec: the encoding of the ordered query parameters (the package
`olhttp` is missing): `key=value` pairs in the given order, joined by `&`. -/
def encodeQuery (escape : String → String) (queryParams : List (String × String)) : String :=
  String.intercalate "&" (queryParams.map fun kv => escape kv.1 ++ "=" ++ escape kv.2)

/-- Modelled from the spec: the request `Execute` builds (the package `olhttp` is
missing): the query parameters appended to the URL, the bearer token attached, and a
body, when present, serialized to JSON with content type `application/json`. -/
def newRequest {Body Cause : Type} (W : Collaborators Body Cause) (svc : OLHTTPService)
    (method : Method) (url : String) (queryParams : List (String × String))
    (body : Option Body) : Request :=
  { method := method
    url := url
    rawQuery := encodeQuery W.queryEscape queryParams
    header :=
      ("Authorization", "bearer " ++ W.token svc.Config) ::
        (match body with
         | some _ => [("Content-Type", "application/json")]
         | none => [])
    body := body.map W.marshal }

/-- Modelled from the spec: whether a status code is 2xx. -/
def isSuccess (statusCode : Int) : Bool :=
  decide (200 ≤ statusCode) && decide (statusCode < 300)

/-- Modelled from the spec: `Execute(method, url, queryParams, body)` of section 4.1
(the package `olhttp` is missing from the sources). The first component is the list of
requests issued to the network, the second the pair `(responseBytes, error)`: one
attempt and no retry; a transport failure is a `TransportError`; a 2xx response gives
the raw body bytes; a non-2xx response gives an `APIError` with the decoded code and
message, or with the raw body when the body does not decode. -/
def Execute {Body Cause : Type} (W : Collaborators Body Cause) (svc : OLHTTPService)
    (method : Method) (url : String) (queryParams : List (String × String))
    (body : Option Body) : List Request × Except (ExecuteError Cause) (List UInt8) :=
  let req := newRequest W svc method url queryParams body
  match W.roundTrip svc.Config.Client req with
  | .error cause => ([req], .error (.TransportError cause))
  | .ok resp =>
    if isSuccess resp.statusCode then ([req], .ok resp.body)
    else
      match W.decodeError resp.body with
      | some payload =>
        ([req], .error (.APIError resp.statusCode payload.code payload.message none))
      | none => ([req], .error (.APIError resp.statusCode none none (some resp.body)))

/-- A mock server: the collaborators of a test, with a fixed token, bodies that are
already JSON text, no escaping, an error decoder that accepts the one-byte body `[1]`,
and a server that answers `GET` with 200 and every other method with 401. -/
def mock : Collaborators String String where
  token := fun _ => "t0k3n"
  marshal := fun b => b
  queryEscape := fun s => s
  decodeError := fun b =>
    if b = [1] then
      some { statusCode := some 401, code := some "unauthorized", message := some "denied" }
    else none
  roundTrip := fun _ req =>
    match req.method with
    | .GET => .ok { statusCode := 200, body := [91, 93] }
    | _ => .ok { statusCode := 401, body := [1] }

end olhttp

/-! ## Lemmas -/

namespace client

/-- Within the `int64` range, `wrapInt64` is the identity. -/
theorem wrapInt64_of_range (x : Int) (h0 : -2 ^ 63 ≤ x) (h1 : x ≤ 2 ^ 63 - 1) :
    wrapInt64 x = x := by
  unfold wrapInt64
  omega

/-- A timeout of `t` seconds that fits `int64` in nanoseconds is computed exactly. -/
theorem seconds_exact (t : Int) (h0 : 0 ≤ t) (h1 : t * 10 ^ 9 ≤ 2 ^ 63 - 1) :
    Duration.mul Second (Duration t) = t * 10 ^ 9 := by
  have ht : Duration t = t := by
    unfold Duration
    apply wrapInt64_of_range <;> omega
  rw [ht]
  unfold Duration.mul Second
  rw [wrapInt64_of_range] <;> omega

/-- Past the `int64` range the product wraps: 9223372037 seconds become a negative
duration. -/
theorem seconds_wraps : Duration.mul Second (Duration 9223372037) = -9223372036709551616 := by
  decide

/-- The error path of `NewClient`: the zero client and the error of `Initialize`. -/
theorem NewClient_of_error (P : Packages) (cfg : Option APIClientConfig)
    (p : Option APIClientConfig) (err : P.Error) (h : P.Initialize cfg = (p, some err)) :
    NewClient P cfg = some (some (APIClient.zero P), some err) := by
  simp only [NewClient, h]

/-! ## The claims about `NewClient` -/

/-- C1: when `Initialize` succeeds, `NewClient` returns a nil error and a client whose
`Services` pointer is non-nil, whose eleven fields are all set, and in which
`HTTPService` is a result of `olhttp.New` and each of the ten service fields is a result
of the `New` constructor of its own package. -/
theorem NewClient_attaches_all_services (P : Packages) (cfg : Option APIClientConfig)
    (cfg' : APIClientConfig) (h : P.Initialize cfg = (some cfg', none)) :
    ∃ (c : APIClient P) (s : Services P),
      NewClient P cfg = some (some c, none) ∧ c.Services = some s ∧
      (∀ f : ServicesField, s.isSet f = true) ∧
      (∃ hc, s.HTTPService = some (P.olhttpNew hc)) ∧
      (∃ r u, s.AppsV2 = some (P.appsNew r u)) ∧
      (∃ r l u, s.AppRulesV2 = some (P.apprulesNew r l u)) ∧
      (∃ r u, s.UsersV2 = some (P.usersNew r u)) ∧
      (∃ r l u, s.UserMappingsV2 = some (P.usermappingsNew r l u)) ∧
      (∃ r u, s.SessionLoginTokensV1 = some (P.sessionlogintokensNew r u)) ∧
      (∃ r u, s.AuthServersV2 = some (P.authserversNew r u)) ∧
      (∃ r u, s.AccessTokenClaimsV2 = some (P.accesstokenclaimsNew r u)) ∧
      (∃ r u, s.ScopesV2 = some (P.scopesNew r u)) ∧
      (∃ r u, s.SmartHooksV1 = some (P.smarthooksNew r u)) ∧
      (∃ r u, s.RolesV1 = some (P.rolesNew r u)) := by
  simp only [NewClient, h]
  refine ⟨_, _, rfl, rfl, ?_, ⟨_, rfl⟩, ⟨_, _, rfl⟩, ⟨_, _, _, rfl⟩, ⟨_, _, rfl⟩,
    ⟨_, _, _, rfl⟩, ⟨_, _, rfl⟩, ⟨_, _, rfl⟩, ⟨_, _, rfl⟩, ⟨_, _, rfl⟩, ⟨_, _, rfl⟩,
    ⟨_, _, rfl⟩⟩
  intro f
  cases f <;> rfl

/-- C1, evaluated on `sampleConfig` with the recording packages. -/
theorem NewClient_attaches_all_services_witness :
    recording.Initialize (some sampleConfig) = (some sampleConfig, none) ∧
    ∃ (c : APIClient recording) (s : Services recording),
      NewClient recording (some sampleConfig) = some (some c, none) ∧ c.Services = some s ∧
      (∀ f : ServicesField, s.isSet f = true) ∧
      (∃ hc, s.HTTPService = some (recording.olhttpNew hc)) ∧
      (∃ r u, s.AppsV2 = some (recording.appsNew r u)) ∧
      (∃ r l u, s.AppRulesV2 = some (recording.apprulesNew r l u)) ∧
      (∃ r u, s.UsersV2 = some (recording.usersNew r u)) ∧
      (∃ r l u, s.UserMappingsV2 = some (recording.usermappingsNew r l u)) ∧
      (∃ r u, s.SessionLoginTokensV1 = some (recording.sessionlogintokensNew r u)) ∧
      (∃ r u, s.AuthServersV2 = some (recording.authserversNew r u)) ∧
      (∃ r u, s.AccessTokenClaimsV2 = some (recording.accesstokenclaimsNew r u)) ∧
      (∃ r u, s.ScopesV2 = some (recording.scopesNew r u)) ∧
      (∃ r u, s.SmartHooksV1 = some (recording.smarthooksNew r u)) ∧
      (∃ r u, s.RolesV1 = some (recording.rolesNew r u)) :=
  ⟨rfl, NewClient_attaches_all_services recording (some sampleConfig) sampleConfig rfl⟩

/-- C2: on a successful call, one executor `e` is the value of `Services.HTTPService`
and the first argument of the constructor of every service, the base URL given to every
constructor is the `Url` of the initialized configuration, and `AppRulesV2` and
`UserMappingsV2` are built with the one legal values service `legalvalues.New e Url`. -/
theorem NewClient_shares_executor_and_base_url (P : Packages)
    (cfg : Option APIClientConfig) (cfg' : APIClientConfig)
    (h : P.Initialize cfg = (some cfg', none)) :
    ∃ (c : APIClient P) (s : Services P) (e : P.OLHTTPService) (lv : P.LegalValuesService),
      NewClient P cfg = some (some c, none) ∧ c.Services = some s ∧
      s.HTTPService = some e ∧
      lv = P.legalvaluesNew e cfg'.Url ∧
      s.AppsV2 = some (P.appsNew e cfg'.Url) ∧
      s.AppRulesV2 = some (P.apprulesNew e lv cfg'.Url) ∧
      s.UserMappingsV2 = some (P.usermappingsNew e lv cfg'.Url) ∧
      s.UsersV2 = some (P.usersNew e cfg'.Url) ∧
      s.SessionLoginTokensV1 = some (P.sessionlogintokensNew e cfg'.Url) ∧
      s.AuthServersV2 = some (P.authserversNew e cfg'.Url) ∧
      s.AccessTokenClaimsV2 = some (P.accesstokenclaimsNew e cfg'.Url) ∧
      s.ScopesV2 = some (P.scopesNew e cfg'.Url) ∧
      s.SmartHooksV1 = some (P.smarthooksNew e cfg'.Url) ∧
      s.RolesV1 = some (P.rolesNew e cfg'.Url) := by
  simp only [NewClient, h]
  exact ⟨_, _, _, _, rfl, rfl, rfl, rfl, rfl, rfl, rfl, rfl, rfl, rfl, rfl, rfl, rfl, rfl⟩

/-- C2, evaluated on `sampleConfig` with the recording packages. -/
theorem NewClient_shares_executor_and_base_url_witness :
    recording.Initialize (some sampleConfig) = (some sampleConfig, none) ∧
    ∃ (c : APIClient recording) (s : Services recording) (e : recording.OLHTTPService)
      (lv : recording.LegalValuesService),
      NewClient recording (some sampleConfig) = some (some c, none) ∧ c.Services = some s ∧
      s.HTTPService = some e ∧
      lv = recording.legalvaluesNew e sampleConfig.Url ∧
      s.AppsV2 = some (recording.appsNew e sampleConfig.Url) ∧
      s.AppRulesV2 = some (recording.apprulesNew e lv sampleConfig.Url) ∧
      s.UserMappingsV2 = some (recording.usermappingsNew e lv sampleConfig.Url) ∧
      s.UsersV2 = some (recording.usersNew e sampleConfig.Url) ∧
      s.SessionLoginTokensV1 = some (recording.sessionlogintokensNew e sampleConfig.Url) ∧
      s.AuthServersV2 = some (recording.authserversNew e sampleConfig.Url) ∧
      s.AccessTokenClaimsV2 = some (recording.accesstokenclaimsNew e sampleConfig.Url) ∧
      s.ScopesV2 = some (recording.scopesNew e sampleConfig.Url) ∧
      s.SmartHooksV1 = some (recording.smarthooksNew e sampleConfig.Url) ∧
      s.RolesV1 = some (recording.rolesNew e sampleConfig.Url) :=
  ⟨rfl, NewClient_shares_executor_and_base_url recording (some sampleConfig) sampleConfig rfl⟩

/-- C3: when the initialized `Timeout` is `t` with `0 ≤ t` and `t * 10^9 ≤ 2^63 - 1`,
the HTTP client built by `NewClient` has `Timeout` exactly `t * 10^9` nanoseconds, and
this one HTTP client is stored in the returned client and handed to `olhttp.New`. -/
theorem NewClient_timeout_seconds (P : Packages) (cfg : Option APIClientConfig)
    (cfg' : APIClientConfig) (h : P.Initialize cfg = (some cfg', none))
    (h0 : 0 ≤ cfg'.Timeout) (h1 : cfg'.Timeout * 10 ^ 9 ≤ 2 ^ 63 - 1) :
    ∃ (c : APIClient P) (s : Services P) (httpClient : HTTPClient),
      NewClient P cfg = some (some c, none) ∧
      httpClient.Timeout = cfg'.Timeout * 10 ^ 9 ∧
      c.client = some httpClient ∧
      c.Services = some s ∧
      s.HTTPService = some (P.olhttpNew
        { ClientID := cfg'.ClientID
          ClientSecret := cfg'.ClientSecret
          BaseURL := cfg'.Url
          Client := httpClient }) := by
  simp only [NewClient, h]
  exact ⟨_, _, _, rfl, seconds_exact cfg'.Timeout h0 h1, rfl, rfl, rfl⟩

/-- C3, evaluated on `sampleConfig` (thirty seconds) with the recording packages. -/
theorem NewClient_timeout_seconds_witness :
    recording.Initialize (some sampleConfig) = (some sampleConfig, none) ∧
    (0 : Int) ≤ sampleConfig.Timeout ∧ sampleConfig.Timeout * 10 ^ 9 ≤ 2 ^ 63 - 1 ∧
    ∃ (c : APIClient recording) (s : Services recording) (httpClient : HTTPClient),
      NewClient recording (some sampleConfig) = some (some c, none) ∧
      httpClient.Timeout = sampleConfig.Timeout * 10 ^ 9 ∧
      c.client = some httpClient ∧
      c.Services = some s ∧
      s.HTTPService = some (recording.olhttpNew
        { ClientID := sampleConfig.ClientID
          ClientSecret := sampleConfig.ClientSecret
          BaseURL := sampleConfig.Url
          Client := httpClient }) :=
  ⟨rfl, by decide, by decide,
    NewClient_timeout_seconds recording (some sampleConfig) sampleConfig rfl
      (by decide) (by decide)⟩

/-- C4: on a successful call the returned client carries `ClientID`, `ClientSecret`,
`Region` and `Url` of the initialized configuration unchanged, and the executor is
configured with the same `ClientID`, `ClientSecret` and `BaseURL = Url`. -/
theorem NewClient_carries_credentials (P : Packages) (cfg : Option APIClientConfig)
    (cfg' : APIClientConfig) (h : P.Initialize cfg = (some cfg', none)) :
    ∃ (c : APIClient P) (s : Services P) (sc : HTTPServiceConfig),
      NewClient P cfg = some (some c, none) ∧
      c.clientID = cfg'.ClientID ∧ c.clientSecret = cfg'.ClientSecret ∧
      c.region = cfg'.Region ∧ c.baseURL = cfg'.Url ∧
      c.Services = some s ∧ s.HTTPService = some (P.olhttpNew sc) ∧
      sc.ClientID = cfg'.ClientID ∧ sc.ClientSecret = cfg'.ClientSecret ∧
      sc.BaseURL = cfg'.Url := by
  simp only [NewClient, h]
  exact ⟨_, _, _, rfl, rfl, rfl, rfl, rfl, rfl, rfl, rfl, rfl, rfl⟩

/-- C4, evaluated on `sampleConfig` with the recording packages. -/
theorem NewClient_carries_credentials_witness :
    recording.Initialize (some sampleConfig) = (some sampleConfig, none) ∧
    ∃ (c : APIClient recording) (s : Services recording) (sc : HTTPServiceConfig),
      NewClient recording (some sampleConfig) = some (some c, none) ∧
      c.clientID = sampleConfig.ClientID ∧ c.clientSecret = sampleConfig.ClientSecret ∧
      c.region = sampleConfig.Region ∧ c.baseURL = sampleConfig.Url ∧
      c.Services = some s ∧ s.HTTPService = some (recording.olhttpNew sc) ∧
      sc.ClientID = sampleConfig.ClientID ∧ sc.ClientSecret = sampleConfig.ClientSecret ∧
      sc.BaseURL = sampleConfig.Url :=
  ⟨rfl, NewClient_carries_credentials recording (some sampleConfig) sampleConfig rfl⟩

/-- C5, as stated, fails: the `Services` value of the client built from `sampleConfig`
does not hold a service of every listed resource kind (it has none for legal values). -/
theorem Services_holds_every_kind_fails :
    ¬ ∀ (c : APIClient recording) (s : Services recording),
        NewClient recording (some sampleConfig) = some (some c, none) →
        c.Services = some s → ∀ k : ResourceKind, s.holds k = true := by
  intro hall
  have hk := hall _ _ rfl rfl ResourceKind.legalValues
  revert hk
  decide

/-- C5, amended: on a successful call the `Services` value holds a service of each of
the nine kinds applications, users, roles, auth servers, scopes, smart hooks, session
login tokens, app rules and user mappings; it holds none of the kind legal values, for
which `Services` declares no field: the legal values service is built from the executor
and the base URL and passed to the constructors of `AppRulesV2` and `UserMappingsV2`. -/
theorem Services_holds_kinds (P : Packages) (cfg : Option APIClientConfig)
    (cfg' : APIClientConfig) (h : P.Initialize cfg = (some cfg', none)) :
    ∃ (c : APIClient P) (s : Services P) (e : P.OLHTTPService),
      NewClient P cfg = some (some c, none) ∧ c.Services = some s ∧
      (∀ k : ResourceKind, k ≠ ResourceKind.legalValues → s.holds k = true) ∧
      s.holds ResourceKind.legalValues = false ∧
      (∀ f : ServicesField, f.package ≠ Package.legalvalues) ∧
      s.HTTPService = some e ∧
      s.AppRulesV2 = some (P.apprulesNew e (P.legalvaluesNew e cfg'.Url) cfg'.Url) ∧
      s.UserMappingsV2 =
        some (P.usermappingsNew e (P.legalvaluesNew e cfg'.Url) cfg'.Url) := by
  simp only [NewClient, h]
  refine ⟨_, _, _, rfl, rfl, ?_, ?_, ?_, rfl, rfl, rfl⟩
  · intro k hk
    cases k <;> first | rfl | exact absurd rfl hk
  · rfl
  · intro f
    cases f <;> decide

/-- C5 amended, evaluated on `sampleConfig` with the recording packages. -/
theorem Services_holds_kinds_witness :
    recording.Initialize (some sampleConfig) = (some sampleConfig, none) ∧
    ∃ (c : APIClient recording) (s : Services recording) (e : recording.OLHTTPService),
      NewClient recording (some sampleConfig) = some (some c, none) ∧ c.Services = some s ∧
      (∀ k : ResourceKind, k ≠ ResourceKind.legalValues → s.holds k = true) ∧
      s.holds ResourceKind.legalValues = false ∧
      (∀ f : ServicesField, f.package ≠ Package.legalvalues) ∧
      s.HTTPService = some e ∧
      s.AppRulesV2 = some (recording.apprulesNew e
        (recording.legalvaluesNew e sampleConfig.Url) sampleConfig.Url) ∧
      s.UserMappingsV2 = some (recording.usermappingsNew e
        (recording.legalvaluesNew e sampleConfig.Url) sampleConfig.Url) :=
  ⟨rfl, Services_holds_kinds recording (some sampleConfig) sampleConfig rfl⟩

/-- C8: `NewClient` returns a non-nil error exactly when `Initialize` does, and the
error it returns is the error of `Initialize` itself: every result of `NewClient` carries
the error value `Initialize` returned, an error of `Initialize` is always returned, and
a nil error of `Initialize` together with a configuration gives a nil error. -/
theorem NewClient_error_is_Initialize_error (P : Packages) (cfg : Option APIClientConfig) :
    (∀ r, NewClient P cfg = some r → r.2 = (P.Initialize cfg).2) ∧
    (∀ r, NewClient P cfg = some r → (r.2 ≠ none ↔ (P.Initialize cfg).2 ≠ none)) ∧
    (∀ err, (P.Initialize cfg).2 = some err → ∃ c, NewClient P cfg = some (c, some err)) ∧
    (∀ cfg', P.Initialize cfg = (some cfg', none) → ∃ c, NewClient P cfg = some (c, none)) := by
  have key : ∀ r, NewClient P cfg = some r → r.2 = (P.Initialize cfg).2 := by
    intro r hr
    rcases hI : P.Initialize cfg with ⟨p, e⟩
    cases e with
    | some err =>
      rw [NewClient_of_error P cfg p err hI] at hr
      cases hr
      rfl
    | none =>
      cases p with
      | none => simp [NewClient, hI] at hr
      | some c' =>
        simp only [NewClient, hI, Option.some.injEq] at hr
        rw [← hr]
  refine ⟨key, ?_, ?_, ?_⟩
  · intro r hr
    rw [key r hr]
  · intro err he
    rcases hI : P.Initialize cfg with ⟨p, e⟩
    rw [hI] at he
    cases he
    exact ⟨_, NewClient_of_error P cfg p err hI⟩
  · intro c' hI
    simp only [NewClient, hI]
    exact ⟨_, rfl⟩

/-- C8, evaluated with the recording packages on a rejected and an accepted
configuration. -/
theorem NewClient_error_is_Initialize_error_witness :
    (recording.Initialize (some emptyConfig)).2 = some "client id is required" ∧
    (∃ c, NewClient recording (some emptyConfig) = some (c, some "client id is required")) ∧
    recording.Initialize (some sampleConfig) = (some sampleConfig, none) ∧
    (∃ c, NewClient recording (some sampleConfig) = some (c, none)) :=
  ⟨rfl,
   (NewClient_error_is_Initialize_error recording (some emptyConfig)).2.2.1
     "client id is required" rfl,
   rfl,
   (NewClient_error_is_Initialize_error recording (some sampleConfig)).2.2.2
     sampleConfig rfl⟩

/-- C9: when `Initialize` fails, `NewClient` returns that error with a non-nil client
that is empty: `clientID`, `clientSecret`, `region` and `baseURL` are empty strings, and
the HTTP client and `Services` are nil. -/
theorem NewClient_error_returns_empty_client (P : Packages) (cfg : Option APIClientConfig)
    (err : P.Error) (h : (P.Initialize cfg).2 = some err) :
    ∃ c : APIClient P,
      NewClient P cfg = some (some c, some err) ∧
      c.clientID = "" ∧ c.clientSecret = "" ∧ c.region = "" ∧ c.baseURL = "" ∧
      c.client = none ∧ c.Services = none := by
  rcases hI : P.Initialize cfg with ⟨p, e⟩
  rw [hI] at h
  cases h
  exact ⟨_, NewClient_of_error P cfg p err hI, rfl, rfl, rfl, rfl, rfl, rfl⟩

/-- C9, evaluated on `emptyConfig` with the recording packages. -/
theorem NewClient_error_returns_empty_client_witness :
    (recording.Initialize (some emptyConfig)).2 = some "client id is required" ∧
    ∃ c : APIClient recording,
      NewClient recording (some emptyConfig) = some (some c, some "client id is required") ∧
      c.clientID = "" ∧ c.clientSecret = "" ∧ c.region = "" ∧ c.baseURL = "" ∧
      c.client = none ∧ c.Services = none :=
  ⟨rfl, NewClient_error_returns_empty_client recording (some emptyConfig)
    "client id is required" rfl⟩

end client

/-! ## The claims about the executor -/

namespace olhttp

/-- One call of `Execute` issues exactly the request built by `newRequest`, once. -/
theorem Execute_issues {Body Cause : Type} (W : Collaborators Body Cause)
    (svc : OLHTTPService) (method : Method) (url : String)
    (queryParams : List (String × String)) (body : Option Body) :
    (Execute W svc method url queryParams body).1 =
      [newRequest W svc method url queryParams body] := by
  unfold Execute
  dsimp only
  split
  · rfl
  · split
    · rfl
    · split <;> rfl

/-- The query string keeps the order in which the parameters are given (here `limit`
before `after`), and a `GET` answered with 200 returns the body bytes. -/
theorem Execute_example :
    Execute mock (New ⟨"id", "secret", "https://api.example.com", ⟨1000000000⟩⟩) Method.GET
        "https://api.example.com/api/2/users" [("limit", "10"), ("after", "5")] none =
      ([⟨Method.GET, "https://api.example.com/api/2/users", "limit=10&after=5",
          [("Authorization", "bearer t0k3n")], none⟩],
       .ok [91, 93]) := by
  rfl

/-- C6: for a response that is not 2xx and whose body decodes to a structured error
payload, `Execute` returns an `APIError` with the HTTP status and with exactly the code
and message of the payload; for a 2xx response it returns the raw body bytes and no
error. -/
theorem Execute_result_of_response {Body Cause : Type} (W : Collaborators Body Cause)
    (svc : OLHTTPService) (method : Method) (url : String)
    (queryParams : List (String × String)) (body : Option Body) (resp : Response)
    (h : W.roundTrip svc.Config.Client (newRequest W svc method url queryParams body) =
      .ok resp) :
    (∀ payload : ErrorPayload,
      ¬ (200 ≤ resp.statusCode ∧ resp.statusCode < 300) →
      W.decodeError resp.body = some payload →
      (Execute W svc method url queryParams body).2 =
        .error (.APIError resp.statusCode payload.code payload.message none)) ∧
    ((200 ≤ resp.statusCode ∧ resp.statusCode < 300) →
      (Execute W svc method url queryParams body).2 = .ok resp.body) := by
  constructor
  · intro payload hs hd
    have hs' : isSuccess resp.statusCode = false := by
      unfold isSuccess
      by_cases h2 : 200 ≤ resp.statusCode
      · have h3 : ¬ resp.statusCode < 300 := fun h3 => hs ⟨h2, h3⟩
        simp [h3]
      · simp [h2]
    simp [Execute, h, hs', hd]
  · intro hs
    have hs' : isSuccess resp.statusCode = true := by
      unfold isSuccess
      simp [hs.1, hs.2]
    simp [Execute, h, hs']

/-- C6, evaluated against the mock server, which answers a `PUT` with 401 and a body
that decodes, for an executor built by `New`. -/
theorem Execute_result_of_response_witness :
    mock.roundTrip (New ⟨"id", "secret", "https://api.us.onelogin.com", ⟨30000000000⟩⟩).Config.Client
      (newRequest mock (New ⟨"id", "secret", "https://api.us.onelogin.com", ⟨30000000000⟩⟩)
        Method.PUT "https://api.us.onelogin.com/api/2/apps/7" [] (some "[]")) =
      .ok ⟨401, [1]⟩ ∧
    ¬ ((200 : Int) ≤ 401 ∧ (401 : Int) < 300) ∧
    mock.decodeError [1] = some ⟨some 401, some "unauthorized", some "denied"⟩ ∧
    (Execute mock (New ⟨"id", "secret", "https://api.us.onelogin.com", ⟨30000000000⟩⟩)
        Method.PUT "https://api.us.onelogin.com/api/2/apps/7" [] (some "[]")).2 =
      .error (.APIError 401 (some "unauthorized") (some "denied") none) :=
  ⟨rfl, by decide, rfl,
   (Execute_result_of_response mock
      (New ⟨"id", "secret", "https://api.us.onelogin.com", ⟨30000000000⟩⟩)
      Method.PUT "https://api.us.onelogin.com/api/2/apps/7" [] (some "[]") ⟨401, [1]⟩ rfl).1
      ⟨some 401, some "unauthorized", some "denied"⟩ (by decide) rfl⟩

/-- C7: for every method, URL and ordered list of query parameters, `Execute` issues one
request, to that method and URL, whose query string is the `key=value` encodings of the
parameters in their given order, joined by `&`. -/
theorem Execute_query_string_in_order {Body Cause : Type} (W : Collaborators Body Cause)
    (svc : OLHTTPService) (method : Method) (url : String)
    (queryParams : List (String × String)) (body : Option Body) :
    ∃ req : Request,
      (Execute W svc method url queryParams body).1 = [req] ∧
      req.method = method ∧ req.url = url ∧
      req.rawQuery =
        String.intercalate "&"
          (queryParams.map fun kv => W.queryEscape kv.1 ++ "=" ++ W.queryEscape kv.2) :=
  ⟨_, Execute_issues W svc method url queryParams body, rfl, rfl, rfl⟩

end olhttp
